import Mathlib

/-!
Shallow embedding of the TLS 1.3 client handshake state handlers of
src/src/boringssl/src/ssl/tls13_client.cc, together with theorems about
the properties claimed of them.

Bytes are modelled as natural numbers below 256; a CBS (crypto byte
string) is a list of bytes read from the front, exactly as the C code
advances a CBS cursor.  Helper routines of BoringSSL that live in other
files (the extension codec, the cipher table, session helpers) are
modelled from the specification document and are marked as such in
their doc comments.
-/

namespace TLS13

/-! ## Protocol constants (from ssl.h / tls1.h of the same source tree) -/

def SSL3_MT_SERVER_HELLO : Nat := 2
def SSL3_MT_NEW_SESSION_TICKET : Nat := 4
def SSL3_MT_HELLO_RETRY_REQUEST : Nat := 6
def SSL3_MT_ENCRYPTED_EXTENSIONS : Nat := 8

def TLSEXT_TYPE_key_share : Nat := 40
def TLSEXT_TYPE_pre_shared_key : Nat := 41
def TLSEXT_TYPE_supported_versions : Nat := 43
def TLSEXT_TYPE_cookie : Nat := 44
def TLSEXT_TYPE_ticket_early_data_info : Nat := 46

def SSL_AD_UNEXPECTED_MESSAGE : Nat := 10
def SSL_AD_ILLEGAL_PARAMETER : Nat := 47
def SSL_AD_DECODE_ERROR : Nat := 50
def SSL_AD_INTERNAL_ERROR : Nat := 80
def SSL_AD_MISSING_EXTENSION : Nat := 109
def SSL_AD_UNSUPPORTED_EXTENSION : Nat := 110

def TLS1_2_VERSION : Nat := 0x0303
def TLS1_3_VERSION : Nat := 0x0304
def TLS1_3_EXPERIMENT_VERSION : Nat := 0x7e01
def TLS1_3_DRAFT_VERSION : Nat := 0x7f12

def SSL_HANDSHAKE_MAC_SHA256 : Nat := 1
def SSL_HANDSHAKE_MAC_SHA384 : Nat := 2

/-- kZeroes truncated to a requested hash length, as in
`tls13_advance_key_schedule(hs, kZeroes, hs->hash_len)`. -/
def kZeroes (n : Nat) : List Nat := List.replicate n 0

/-! ## CBS primitives (bytestring.h semantics) -/

/-- CBS_get_u16: read a big-endian 16-bit value off the front. -/
def CBS_get_u16 : List Nat → Option (Nat × List Nat)
  | a :: b :: rest => some (a * 256 + b, rest)
  | _ => none

/-- CBS_get_u8: read one byte off the front. -/
def CBS_get_u8 : List Nat → Option (Nat × List Nat)
  | a :: rest => some (a, rest)
  | _ => none

/-- CBS_get_u32: read a big-endian 32-bit value off the front. -/
def CBS_get_u32 : List Nat → Option (Nat × List Nat)
  | a :: b :: c :: d :: rest =>
    some (((a * 256 + b) * 256 + c) * 256 + d, rest)
  | _ => none

/-- CBS_get_bytes: split off exactly n bytes. -/
def CBS_get_bytes (s : List Nat) (n : Nat) : Option (List Nat × List Nat) :=
  if n ≤ s.length then some (s.take n, s.drop n) else none

/-- CBS_get_u16_length_prefixed: a 16-bit length followed by that many bytes. -/
def CBS_get_u16_length_prefixed (s : List Nat) : Option (List Nat × List Nat) :=
  match CBS_get_u16 s with
  | some (n, rest) => CBS_get_bytes rest n
  | none => none

/-- CBS_get_u8_length_prefixed: an 8-bit length followed by that many bytes. -/
def CBS_get_u8_length_prefixed (s : List Nat) : Option (List Nat × List Nat) :=
  match CBS_get_u8 s with
  | some (n, rest) => CBS_get_bytes rest n
  | none => none

/-! ## Extension codec -/

/-- Modelled from the spec: `ssl_parse_extensions` lives in another file of
the repository (only its callers are under src/).  Per §4.3 of the spec it
decodes a sequence of {type:u16, length-prefixed data} records, rejects a
duplicate occurrence of any type, rejects unrecognized types in strict mode
and skips them in lenient mode, and requires byte-exact lengths with zero
trailing bytes.  On failure it yields the alert to send (the callers
initialize it to decode_error; unknown-in-strict yields
unsupported_extension, a duplicate yields illegal_parameter).  `fuel`
bounds the recursion by the buffer length. -/
def parseExtensionsAux (ignoreUnknown : Bool) (wanted : List Nat) :
    Nat → List Nat → List Nat → List (Nat × List Nat) →
    Except Nat (List (Nat × List Nat))
  | _, [], _, acc => Except.ok acc
  | 0, _ :: _, _, _ => Except.error SSL_AD_DECODE_ERROR
  | fuel + 1, buf@(_ :: _), seen, acc =>
    match CBS_get_u16 buf with
    | none => Except.error SSL_AD_DECODE_ERROR
    | some (ty, rest) =>
      match CBS_get_u16_length_prefixed rest with
      | none => Except.error SSL_AD_DECODE_ERROR
      | some (data, rest2) =>
        if seen.contains ty then Except.error SSL_AD_ILLEGAL_PARAMETER
        else if wanted.contains ty then
          parseExtensionsAux ignoreUnknown wanted fuel rest2 (ty :: seen)
            (acc ++ [(ty, data)])
        else if ignoreUnknown then
          parseExtensionsAux ignoreUnknown wanted fuel rest2 (ty :: seen) acc
        else Except.error SSL_AD_UNSUPPORTED_EXTENSION

/-- Modelled from the spec: entry point of the extension codec (see
`parseExtensionsAux`). -/
def ssl_parse_extensions (ignoreUnknown : Bool) (wanted : List Nat)
    (buf : List Nat) : Except Nat (List (Nat × List Nat)) :=
  parseExtensionsAux ignoreUnknown wanted buf.length buf [] []

/-- Presence flag for an extension type in the decoded set. -/
def extPresent (exts : List (Nat × List Nat)) (ty : Nat) : Bool :=
  (exts.lookup ty).isSome

/-! ## Handler result type -/

/-- The `ssl_hs_wait_t` values produced by the handlers in this file. -/
inductive HsWait where
  | ok
  | readMessage
  | error
  | flush
  | earlyDataRejected
  | readChangeCipherSpec
  deriving DecidableEq, Repr

/-- The client handshake states (`client_hs_state_t`). -/
inductive ClientHSState where
  | readHelloRetryRequest
  | sendSecondClientHello
  | readServerHello
  | processChangeCipherSpec
  | readEncryptedExtensions
  | readCertificateRequest
  | readServerCertificate
  | readServerCertificateVerify
  | readServerFinished
  | sendEndOfEarlyData
  | sendClientCertificate
  | sendClientCertificateVerify
  | completeSecondFlight
  | done
  deriving DecidableEq, Repr

/-! ## do_read_hello_retry_request -/

/-- Immutable inputs of `do_read_hello_retry_request`: the message and the
handshake fields it only reads. -/
structure HRRInput where
  msgType : Nat
  body : List Nat
  /-- tls1_get_grouplist: the client's supported groups. -/
  supportedGroups : List Nat
  /-- hs->key_share->GroupID(): the group offered in the initial ClientHello. -/
  offeredGroupID : Nat
  /-- hs->in_early_data. -/
  inEarlyData : Bool
  deriving DecidableEq, Repr

/-- Mutable handshake fields touched by `do_read_hello_retry_request`. -/
structure HRRState where
  cookie : Option (List Nat)
  /-- Whether hs->key_share still holds the offered share (reset clears it). -/
  keySharePresent : Bool
  retryGroup : Option Nat
  /-- The transcript as the list of hashed messages (type, body). -/
  transcript : List (Nat × List Nat)
  receivedHelloRetryRequest : Bool
  tls13State : ClientHSState
  deriving DecidableEq, Repr

/-- A handler outcome: the wait value returned, the alert sent by
ssl3_send_alert on the way out (if any), and the mutated state. -/
structure HRROutput where
  result : HsWait
  alert : Option Nat
  st : HRRState
  deriving DecidableEq, Repr

/-- Fatal exit helper: ssl3_send_alert followed by `return ssl_hs_error`. -/
def hrrFatal (a : Nat) (st : HRRState) : HRROutput :=
  { result := HsWait.error, alert := some a, st := st }

/-- The cookie-extension body handling of do_read_hello_retry_request
(lines 92-105): a u16-length-prefixed non-empty value with no trailing
bytes, stowed into hs->cookie. -/
def hrrProcessCookie (st : HRRState) (cookie : List Nat) :
    Except HRROutput HRRState :=
  match CBS_get_u16_length_prefixed cookie with
  | none => Except.error (hrrFatal SSL_AD_DECODE_ERROR st)
  | some (cookieValue, rest) =>
    if cookieValue.length = 0 ∨ rest.length ≠ 0 then
      Except.error (hrrFatal SSL_AD_DECODE_ERROR st)
    else
      Except.ok { st with cookie := some cookieValue }

/-- The key_share-extension body handling of do_read_hello_retry_request
(lines 107-143): a u16 group id with no trailing bytes; the group must be
in the supported list and must differ from the originally offered group;
then the old share is dropped and the retry group recorded. -/
def hrrProcessKeyShare (inp : HRRInput) (st : HRRState) (ks : List Nat) :
    Except HRROutput HRRState :=
  match CBS_get_u16 ks with
  | none => Except.error (hrrFatal SSL_AD_DECODE_ERROR st)
  | some (groupID, rest) =>
    if rest.length ≠ 0 then
      Except.error (hrrFatal SSL_AD_DECODE_ERROR st)
    else if ¬ inp.supportedGroups.contains groupID then
      Except.error (hrrFatal SSL_AD_ILLEGAL_PARAMETER st)
    else if inp.offeredGroupID = groupID then
      Except.error (hrrFatal SSL_AD_ILLEGAL_PARAMETER st)
    else
      Except.ok { st with keySharePresent := false, retryGroup := some groupID }

/-- do_read_hello_retry_request (tls13_client.cc lines 54-157), assuming a
complete message is available (the `get_message` suspension is not
modelled: the driver re-enters with the same state). -/
def do_read_hello_retry_request (inp : HRRInput) (st : HRRState) : HRROutput :=
  if inp.msgType ≠ SSL3_MT_HELLO_RETRY_REQUEST then
    { result := HsWait.ok, alert := none,
      st := { st with tls13State := ClientHSState.readServerHello } }
  else
    match CBS_get_u16 inp.body with
    | none => hrrFatal SSL_AD_DECODE_ERROR st
    | some (_, body1) =>
      match CBS_get_u16_length_prefixed body1 with
      | none => hrrFatal SSL_AD_DECODE_ERROR st
      | some (extensions, body2) =>
        if extensions.length = 0 ∨ body2.length ≠ 0 then
          hrrFatal SSL_AD_DECODE_ERROR st
        else
          match ssl_parse_extensions false
              [TLSEXT_TYPE_key_share, TLSEXT_TYPE_cookie] extensions with
          | Except.error a => hrrFatal a st
          | Except.ok exts =>
            let afterCookie : Except HRROutput HRRState :=
              match exts.lookup TLSEXT_TYPE_cookie with
              | none => Except.ok st
              | some c => hrrProcessCookie st c
            match afterCookie with
            | Except.error out => out
            | Except.ok st1 =>
              let afterKS : Except HRROutput HRRState :=
                match exts.lookup TLSEXT_TYPE_key_share with
                | none => Except.ok st1
                | some ks => hrrProcessKeyShare inp st1 ks
              match afterKS with
              | Except.error out => out
              | Except.ok st2 =>
                { result := if inp.inEarlyData then HsWait.earlyDataRejected
                            else HsWait.ok,
                  alert := none,
                  st := { st2 with
                          transcript :=
                            st2.transcript ++ [(inp.msgType, inp.body)],
                          receivedHelloRetryRequest := true,
                          tls13State := ClientHSState.sendSecondClientHello } }

/-! ## Ciphers, sessions and the key schedule -/

/-- A cipher-suite table entry (SSL_CIPHER), reduced to the fields the
handlers in this file consult. -/
structure SSLCipher where
  value : Nat
  algorithm_prf : Nat
  min_version : Nat
  max_version : Nat
  deriving DecidableEq, Repr

/-- Modelled from the spec: the TLS 1.3 cipher-suite table lives in another
file of the repository; these are the TLS 1.3 AEAD suites, each valid
exactly for protocol version TLS 1.3 and carrying its PRF hash. -/
def kTLS13Ciphers : List SSLCipher :=
  [ { value := 0x1301, algorithm_prf := SSL_HANDSHAKE_MAC_SHA256,
      min_version := TLS1_3_VERSION, max_version := TLS1_3_VERSION },
    { value := 0x1302, algorithm_prf := SSL_HANDSHAKE_MAC_SHA384,
      min_version := TLS1_3_VERSION, max_version := TLS1_3_VERSION },
    { value := 0x1303, algorithm_prf := SSL_HANDSHAKE_MAC_SHA256,
      min_version := TLS1_3_VERSION, max_version := TLS1_3_VERSION } ]

/-- Modelled from the spec: SSL_get_cipher_by_value looks a suite up in the
cipher table. -/
def SSL_get_cipher_by_value (v : Nat) : Option SSLCipher :=
  kTLS13Ciphers.find? (fun c => c.value == v)

/-- Modelled from the spec: ssl3_protocol_version normalizes the wire
version of the draft and experiment TLS 1.3 variants to TLS 1.3. -/
def ssl3_protocol_version (v : Nat) : Nat :=
  if v = TLS1_3_EXPERIMENT_VERSION ∨ v = TLS1_3_DRAFT_VERSION then
    TLS1_3_VERSION
  else v

/-- Hash output length of a PRF family (hs->hash_len once the suite is
known): 48 bytes for SHA-384, 32 for SHA-256. -/
def prfHashLen (prf : Nat) : Nat :=
  if prf = SSL_HANDSHAKE_MAC_SHA384 then 48 else 32

/-- An SSL_SESSION, reduced to the fields the handlers in this file touch.
`authState` abstracts the authentication state (peer certificates,
verification result) that external collaborators manage. -/
structure SSLSession where
  ssl_version : Nat
  cipher : Option SSLCipher
  master_key : List Nat
  authState : Nat
  time : Nat
  timeout : Nat
  tlsext_tick : List Nat
  ticket_age_add : Nat
  ticket_age_add_valid : Bool
  ticket_max_early_data : Nat
  not_resumable : Bool
  early_alpn : List Nat
  deriving DecidableEq, Repr

/-- Modelled from the spec: ssl_get_new_session allocates a fresh session
(§4.1: pre_shared_key absent implies allocate a fresh session). -/
def freshSession : SSLSession :=
  { ssl_version := 0, cipher := none, master_key := [], authState := 0,
    time := 0, timeout := 0, tlsext_tick := [], ticket_age_add := 0,
    ticket_age_add_valid := false, ticket_max_early_data := 0,
    not_resumable := false, early_alpn := [] }

/-- The PRF family of a session's cipher (ssl->session->cipher->algorithm_prf). -/
def sessionPrf (s : SSLSession) : Nat :=
  match s.cipher with
  | some c => c.algorithm_prf
  | none => 0

/-- Modelled from the spec: SSL_SESSION_dup with SSL_SESSION_DUP_AUTH_ONLY —
only authentication information carries over in TLS 1.3, together with the
negotiated parameters and the resumption master secret that the key
schedule consumes; ticket state and timestamps are reset. -/
def sessionDupAuthOnly (s : SSLSession) : SSLSession :=
  { freshSession with
    ssl_version := s.ssl_version,
    cipher := s.cipher,
    master_key := s.master_key,
    authState := s.authState }

/-- Modelled from the spec: SSL_SESSION_dup with SSL_SESSION_INCLUDE_NONAUTH
duplicates the whole session. -/
def sessionDupAll (s : SSLSession) : SSLSession := s

/-- Modelled from the spec: ssl_session_rebase_time re-bases the session's
creation time to the current time. -/
def ssl_session_rebase_time (now : Nat) (s : SSLSession) : SSLSession :=
  { s with time := now }

/-- Modelled from the spec: ssl_session_renew_timeout refreshes the
session's timeout (resumption incorporates fresh key material). -/
def ssl_session_renew_timeout (now timeout : Nat) (s : SSLSession) :
    SSLSession :=
  { s with time := now, timeout := timeout }

/-- One step of the key-schedule trace: tls13_init_key_schedule fixes the
hash length; tls13_advance_key_schedule folds a secret in. -/
inductive KSStep where
  | ksInit (hashLen : Nat)
  | advance (secret : List Nat)
  deriving DecidableEq, Repr

/-! ## do_read_server_hello -/

/-- Immutable inputs of `do_read_server_hello`.  The verdicts of the
external extension-body parsers (`ssl_ext_pre_shared_key_parse_serverhello`
and `ssl_ext_key_share_parse_serverhello`, which live in other files) are
supplied as inputs: an alert to send on failure, or — for key_share — the
computed DHE shared secret on success. -/
structure SHInput where
  msgType : Nat
  body : List Nat
  /-- ssl->version, the negotiated version. -/
  sslVersion : Nat
  /-- Verdict of ssl_ext_pre_shared_key_parse_serverhello. -/
  pskParse : Except Nat Unit
  /-- Verdict of ssl_session_is_context_valid. -/
  sessionCtxValid : Bool
  /-- ssl->session_ctx->session_psk_dhe_timeout. -/
  pskDheTimeout : Nat
  now : Nat
  /-- Verdict of ssl_ext_key_share_parse_serverhello: DHE secret or alert. -/
  keyShareParse : Except Nat (List Nat)
  deriving Repr

/-- Mutable fields touched by `do_read_server_hello`. -/
structure SHState where
  /-- ssl->session, the offered session handle (discarded on PSK accept). -/
  sslSession : Option SSLSession
  serverRandom : List Nat
  sessionReused : Bool
  newSession : Option SSLSession
  newCipher : Option SSLCipher
  keySchedule : List KSStep
  transcript : List (Nat × List Nat)
  handshakeSecretsDerived : Bool
  tls13State : ClientHSState
  deriving DecidableEq, Repr

structure SHOutput where
  result : HsWait
  alert : Option Nat
  st : SHState
  deriving DecidableEq, Repr

def shFatal (a : Nat) (st : SHState) : SHOutput :=
  { result := HsWait.error, alert := some a, st := st }

/-- What the fixed-layout part of do_read_server_hello extracts from the
message body. -/
structure SHParsed where
  serverVersion : Nat
  serverRandom : List Nat
  cipherSuite : Nat
  extensions : List Nat
  deriving DecidableEq, Repr

/-- The body layout of ServerHello (tls13_client.cc lines 183-199): version,
32-byte random, then — only under TLS1_3_EXPERIMENT_VERSION — a legacy
session id, the cipher suite, — again only under the experiment version —
a zero compression byte, the extension block, and nothing after it. -/
def shParseBody (sslVersion : Nat) (body : List Nat) : Option SHParsed :=
  match CBS_get_u16 body with
  | none => none
  | some (serverVersion, b1) =>
    match CBS_get_bytes b1 32 with
    | none => none
    | some (serverRandom, b2) =>
      let afterSid : Option (List Nat) :=
        if sslVersion = TLS1_3_EXPERIMENT_VERSION then
          match CBS_get_u8_length_prefixed b2 with
          | none => none
          | some (_, b3) => some b3
        else some b2
      match afterSid with
      | none => none
      | some b3 =>
        match CBS_get_u16 b3 with
        | none => none
        | some (cipherSuite, b4) =>
          let afterComp : Option (List Nat) :=
            if sslVersion = TLS1_3_EXPERIMENT_VERSION then
              match CBS_get_u8 b4 with
              | none => none
              | some (comp, b5) => if comp ≠ 0 then none else some b5
            else some b4
          match afterComp with
          | none => none
          | some b5 =>
            match CBS_get_u16_length_prefixed b5 with
            | none => none
            | some (extensions, b6) =>
              if b6.length ≠ 0 then none
              else some { serverVersion := serverVersion,
                          serverRandom := serverRandom,
                          cipherSuite := cipherSuite,
                          extensions := extensions }

/-- The wire version field the handler insists on (lines 201-202): the
negotiated version itself, except that the experiment variant is carried
over a TLS 1.2 wire version. -/
def shExpectedVersion (sslVersion : Nat) : Nat :=
  if sslVersion = TLS1_3_EXPERIMENT_VERSION then TLS1_2_VERSION else sslVersion

/-- Decode phase of do_read_server_hello (lines 179-252): message-type
check, body layout, version check, cipher lookup and version-range check,
extension codec in strict mode, and the supported_versions restriction.
Returns the parsed pieces plus chosen cipher, or the fatal output. -/
def shDecodePhase (inp : SHInput) (st : SHState) :
    Except SHOutput (SHParsed × SSLCipher × List (Nat × List Nat) × SHState) :=
  if inp.msgType ≠ SSL3_MT_SERVER_HELLO then
    Except.error (shFatal SSL_AD_UNEXPECTED_MESSAGE st)
  else
    match shParseBody inp.sslVersion inp.body with
    | none => Except.error (shFatal SSL_AD_DECODE_ERROR st)
    | some parsed =>
      if parsed.serverVersion ≠ shExpectedVersion inp.sslVersion then
        Except.error (shFatal SSL_AD_DECODE_ERROR st)
      else
        let st1 := { st with serverRandom := parsed.serverRandom }
        match SSL_get_cipher_by_value parsed.cipherSuite with
        | none => Except.error (shFatal SSL_AD_ILLEGAL_PARAMETER st1)
        | some cipher =>
          if cipher.min_version > ssl3_protocol_version inp.sslVersion ∨
             cipher.max_version < ssl3_protocol_version inp.sslVersion then
            Except.error (shFatal SSL_AD_ILLEGAL_PARAMETER st1)
          else
            match ssl_parse_extensions false
                [TLSEXT_TYPE_key_share, TLSEXT_TYPE_pre_shared_key,
                 TLSEXT_TYPE_supported_versions] parsed.extensions with
            | Except.error a => Except.error (shFatal a st1)
            | Except.ok exts =>
              if extPresent exts TLSEXT_TYPE_supported_versions ∧
                 inp.sslVersion ≠ TLS1_3_EXPERIMENT_VERSION then
                Except.error (shFatal SSL_AD_UNSUPPORTED_EXTENSION st1)
              else
                Except.ok (parsed, cipher, exts, st1)

/-- Session phase of do_read_server_hello (lines 254-303): with
pre_shared_key present, a session must have been offered, the external PSK
parser must accept, the session's protocol version and PRF family must
match, and the resumption context must be valid; then the connection is
marked reused, only authentication state is duplicated into the new
session, the offered handle is dropped and the timeout refreshed.  Without
pre_shared_key a fresh session is allocated. -/
def shSessionPhase (inp : SHInput) (cipher : SSLCipher)
    (exts : List (Nat × List Nat)) (st : SHState) :
    Except SHOutput SHState :=
  if extPresent exts TLSEXT_TYPE_pre_shared_key then
    match st.sslSession with
    | none => Except.error (shFatal SSL_AD_UNSUPPORTED_EXTENSION st)
    | some sess =>
      match inp.pskParse with
      | Except.error a => Except.error (shFatal a st)
      | Except.ok _ =>
        if sess.ssl_version ≠ inp.sslVersion then
          Except.error (shFatal SSL_AD_ILLEGAL_PARAMETER st)
        else if sessionPrf sess ≠ cipher.algorithm_prf then
          Except.error (shFatal SSL_AD_ILLEGAL_PARAMETER st)
        else if ¬ inp.sessionCtxValid then
          Except.error (shFatal SSL_AD_ILLEGAL_PARAMETER st)
        else
          Except.ok { st with
            sessionReused := true,
            newSession := some (ssl_session_renew_timeout inp.now
              inp.pskDheTimeout (sessionDupAuthOnly sess)),
            sslSession := none }
  else
    Except.ok { st with newSession := some freshSession }

/-- Key-schedule and key-share phase of do_read_server_hello (lines
305-355): record the cipher on the new session, initialize the key
schedule now that the PRF hash is known, fold in the PSK (resumption
master secret) or zeros, require key_share, fold in the DHE secret, hash
the message, derive the handshake secrets, and advance the state. -/
def shFinishPhase (inp : SHInput) (cipher : SSLCipher)
    (exts : List (Nat × List Nat)) (st : SHState) : SHOutput :=
  let st1 := { st with
    newSession := st.newSession.map
      (fun s : SSLSession => { s with cipher := some cipher }),
    newCipher := some cipher }
  let hashLen := prfHashLen cipher.algorithm_prf
  let st2 := { st1 with keySchedule := st1.keySchedule ++ [KSStep.ksInit hashLen] }
  let pskSecret : List Nat :=
    if st2.sessionReused then
      match st2.newSession with
      | some s => s.master_key
      | none => []
    else kZeroes hashLen
  let st3 := { st2 with keySchedule := st2.keySchedule ++ [KSStep.advance pskSecret] }
  if ¬ extPresent exts TLSEXT_TYPE_key_share then
    shFatal SSL_AD_MISSING_EXTENSION st3
  else
    match inp.keyShareParse with
    | Except.error a => shFatal a st3
    | Except.ok dheSecret =>
      let st4 := { st3 with
        keySchedule := st3.keySchedule ++ [KSStep.advance dheSecret] }
      let st5 := { st4 with
        transcript := st4.transcript ++ [(inp.msgType, inp.body)],
        handshakeSecretsDerived := true,
        tls13State := ClientHSState.processChangeCipherSpec }
      { result := if inp.sslVersion = TLS1_3_EXPERIMENT_VERSION then
                    HsWait.readChangeCipherSpec
                  else HsWait.ok,
        alert := none, st := st5 }

/-- do_read_server_hello (tls13_client.cc lines 173-356), assuming a
complete message is available. -/
def do_read_server_hello (inp : SHInput) (st : SHState) : SHOutput :=
  match shDecodePhase inp st with
  | Except.error out => out
  | Except.ok (_, cipher, exts, st1) =>
    match shSessionPhase inp cipher exts st1 with
    | Except.error out => out
    | Except.ok st2 => shFinishPhase inp cipher exts st2

/-! ## Theorems about do_read_hello_retry_request -/

/-- Well-formedness of the cookie extension body as the handler checks it
(lines 92-105): absent, or a u16-length-prefixed non-empty value with no
trailing bytes. -/
def hrrCookieWellFormed : Option (List Nat) → Bool
  | none => true
  | some c =>
    match CBS_get_u16_length_prefixed c with
    | none => false
    | some (v, rest) => decide (v.length ≠ 0) && decide (rest.length = 0)

/-- The handshake state at entry to the TLS 1.3 client machine. -/
def hrrStart : HRRState :=
  { cookie := none, keySharePresent := true, retryGroup := none,
    transcript := [], receivedHelloRetryRequest := false,
    tls13State := ClientHSState.readHelloRetryRequest }

/-- A HelloRetryRequest whose extension block holds only a cookie:
version 0x0304, extension block of one cookie extension carrying the
one-byte cookie value 0xAA. -/
def hrrCookieOnlyMsg : HRRInput :=
  { msgType := SSL3_MT_HELLO_RETRY_REQUEST,
    body := [3, 4, 0, 7, 0, 44, 0, 3, 0, 1, 170],
    supportedGroups := [23, 24], offeredGroupID := 23, inEarlyData := false }

/-- C1 counterexample: a well-formed HelloRetryRequest whose extension
block lacks the key_share extension (it carries only a cookie) is accepted
by do_read_hello_retry_request — the handler returns ok and advances to the
send-second-ClientHello state — rather than rejected as fatal. -/
theorem C1_counterexample :
    (do_read_hello_retry_request hrrCookieOnlyMsg hrrStart).result =
      HsWait.ok ∧
    (do_read_hello_retry_request hrrCookieOnlyMsg hrrStart).st.tls13State =
      ClientHSState.sendSecondClientHello ∧
    (ssl_parse_extensions false [TLSEXT_TYPE_key_share, TLSEXT_TYPE_cookie]
        [0, 44, 0, 3, 0, 1, 170]).toOption.map
      (fun e => extPresent e TLSEXT_TYPE_key_share) = some false := by
  decide

/-- C1 (amended): the key_share extension of a HelloRetryRequest is
optional, not mandatory.  Every well-formed HelloRetryRequest whose
non-empty extension block parses, lacks key_share, and carries at most a
well-formed cookie is accepted: the handler advances to the
send-second-ClientHello state and returns ok (or the 0-RTT rejection
signal), never a fatal error. -/
theorem C1_keyshare_optional (inp : HRRInput) (st : HRRState)
    (v : Nat) (b1 ext : List Nat) (exts : List (Nat × List Nat))
    (hty : inp.msgType = SSL3_MT_HELLO_RETRY_REQUEST)
    (hbody : CBS_get_u16 inp.body = some (v, b1))
    (hext : CBS_get_u16_length_prefixed b1 = some (ext, []))
    (hne : ext ≠ [])
    (hparse : ssl_parse_extensions false
      [TLSEXT_TYPE_key_share, TLSEXT_TYPE_cookie] ext = Except.ok exts)
    (hnoks : exts.lookup TLSEXT_TYPE_key_share = none)
    (hcookie : hrrCookieWellFormed (exts.lookup TLSEXT_TYPE_cookie) = true) :
    (do_read_hello_retry_request inp st).st.tls13State =
      ClientHSState.sendSecondClientHello ∧
    (do_read_hello_retry_request inp st).result =
      (if inp.inEarlyData then HsWait.earlyDataRejected else HsWait.ok) := by
  have hlen : ext.length ≠ 0 := fun h => hne (List.length_eq_zero.mp h)
  cases hc : exts.lookup TLSEXT_TYPE_cookie with
  | none =>
    simp [do_read_hello_retry_request, hty, hbody, hext, hparse, hnoks, hc,
      hlen]
  | some c =>
    rw [hc] at hcookie
    simp only [hrrCookieWellFormed] at hcookie
    cases hcv : CBS_get_u16_length_prefixed c with
    | none => rw [hcv] at hcookie; simp at hcookie
    | some p =>
      obtain ⟨cv, rest⟩ := p
      rw [hcv] at hcookie
      simp only [Bool.and_eq_true, decide_eq_true_eq] at hcookie
      simp [do_read_hello_retry_request, hty, hbody, hext, hparse, hnoks, hc,
        hlen, hrrProcessCookie, hcv, hcookie.1, hcookie.2]

/-- Closed witness for C1_keyshare_optional at the cookie-only message. -/
theorem C1_keyshare_optional_witness :
    (do_read_hello_retry_request hrrCookieOnlyMsg hrrStart).st.tls13State =
      ClientHSState.sendSecondClientHello ∧
    (do_read_hello_retry_request hrrCookieOnlyMsg hrrStart).result =
      (if hrrCookieOnlyMsg.inEarlyData then HsWait.earlyDataRejected
       else HsWait.ok) :=
  C1_keyshare_optional hrrCookieOnlyMsg hrrStart 0x0304
    [0, 7, 0, 44, 0, 3, 0, 1, 170] [0, 44, 0, 3, 0, 1, 170]
    [(TLSEXT_TYPE_cookie, [0, 1, 170])]
    (by decide) (by decide) (by decide) (by decide) (by rfl) (by decide)
    (by decide)

/-- C2: do_read_hello_retry_request returns a fatal error and leaves the
machine in its current state for (a) an empty extension block, with alert
decode_error; (b) a requested group absent from the client's
supported-groups list, with alert illegal_parameter; and (c) a requested
group equal to the one already offered in the initial ClientHello key
share, with alert illegal_parameter. -/
theorem C2_hrr_rejections (inp : HRRInput) (st : HRRState)
    (hty : inp.msgType = SSL3_MT_HELLO_RETRY_REQUEST) :
    (∀ v b1, CBS_get_u16 inp.body = some (v, b1) →
      CBS_get_u16_length_prefixed b1 = some ([], []) →
      do_read_hello_retry_request inp st =
        { result := HsWait.error, alert := some SSL_AD_DECODE_ERROR,
          st := st }) ∧
    (∀ v b1 ext exts ks gid, CBS_get_u16 inp.body = some (v, b1) →
      CBS_get_u16_length_prefixed b1 = some (ext, []) →
      ssl_parse_extensions false
        [TLSEXT_TYPE_key_share, TLSEXT_TYPE_cookie] ext = Except.ok exts →
      hrrCookieWellFormed (exts.lookup TLSEXT_TYPE_cookie) = true →
      exts.lookup TLSEXT_TYPE_key_share = some ks →
      CBS_get_u16 ks = some (gid, []) →
      inp.supportedGroups.contains gid = false →
      (do_read_hello_retry_request inp st).result = HsWait.error ∧
      (do_read_hello_retry_request inp st).alert =
        some SSL_AD_ILLEGAL_PARAMETER ∧
      (do_read_hello_retry_request inp st).st.tls13State = st.tls13State) ∧
    (∀ v b1 ext exts ks gid, CBS_get_u16 inp.body = some (v, b1) →
      CBS_get_u16_length_prefixed b1 = some (ext, []) →
      ssl_parse_extensions false
        [TLSEXT_TYPE_key_share, TLSEXT_TYPE_cookie] ext = Except.ok exts →
      hrrCookieWellFormed (exts.lookup TLSEXT_TYPE_cookie) = true →
      exts.lookup TLSEXT_TYPE_key_share = some ks →
      CBS_get_u16 ks = some (gid, []) →
      inp.offeredGroupID = gid →
      (do_read_hello_retry_request inp st).result = HsWait.error ∧
      (do_read_hello_retry_request inp st).alert =
        some SSL_AD_ILLEGAL_PARAMETER ∧
      (do_read_hello_retry_request inp st).st.tls13State = st.tls13State) := by
  refine ⟨?_, ?_, ?_⟩
  · intro v b1 hbody hext
    simp [do_read_hello_retry_request, hty, hbody, hext, hrrFatal]
  · intro v b1 ext exts ks gid hbody hext hparse hcookie hks hgid hsupp
    have hmem : ¬ gid ∈ inp.supportedGroups := by simpa using hsupp
    have hlen : ext.length ≠ 0 := by
      intro h
      rw [List.length_eq_zero.mp h] at hparse
      simp [ssl_parse_extensions, parseExtensionsAux] at hparse
      subst hparse
      simp at hks
    cases hc : exts.lookup TLSEXT_TYPE_cookie with
    | none =>
      simp [do_read_hello_retry_request, hty, hbody, hext, hparse, hc, hks,
        hlen, hrrProcessKeyShare, hgid, hmem, hrrFatal]
    | some c =>
      rw [hc] at hcookie
      simp only [hrrCookieWellFormed] at hcookie
      cases hcv : CBS_get_u16_length_prefixed c with
      | none => rw [hcv] at hcookie; simp at hcookie
      | some p =>
        obtain ⟨cv, rest⟩ := p
        rw [hcv] at hcookie
        simp only [Bool.and_eq_true, decide_eq_true_eq] at hcookie
        simp [do_read_hello_retry_request, hty, hbody, hext, hparse, hc, hks,
          hlen, hrrProcessCookie, hcv, hcookie.1, hcookie.2,
          hrrProcessKeyShare, hgid, hmem, hrrFatal]
  · intro v b1 ext exts ks gid hbody hext hparse hcookie hks hgid hsame
    have hlen : ext.length ≠ 0 := by
      intro h
      rw [List.length_eq_zero.mp h] at hparse
      simp [ssl_parse_extensions, parseExtensionsAux] at hparse
      subst hparse
      simp at hks
    cases hc : exts.lookup TLSEXT_TYPE_cookie with
    | none =>
      by_cases hmem : gid ∈ inp.supportedGroups
      all_goals simp [do_read_hello_retry_request, hty, hbody, hext, hparse,
        hc, hks, hlen, hrrProcessKeyShare, hgid, hmem, hsame, hrrFatal]
    | some c =>
      rw [hc] at hcookie
      simp only [hrrCookieWellFormed] at hcookie
      cases hcv : CBS_get_u16_length_prefixed c with
      | none => rw [hcv] at hcookie; simp at hcookie
      | some p =>
        obtain ⟨cv, rest⟩ := p
        rw [hcv] at hcookie
        simp only [Bool.and_eq_true, decide_eq_true_eq] at hcookie
        by_cases hmem : gid ∈ inp.supportedGroups
        all_goals simp [do_read_hello_retry_request, hty, hbody, hext, hparse,
          hc, hks, hlen, hrrProcessCookie, hcv, hcookie.1, hcookie.2,
          hrrProcessKeyShare, hgid, hmem, hsame, hrrFatal]

/-- Closed witness for C2_hrr_rejections: the empty-block, unsupported-group
and same-group rejections at concrete messages. -/
theorem C2_hrr_rejections_witness :
    (do_read_hello_retry_request
        { hrrCookieOnlyMsg with body := [3, 4, 0, 0] } hrrStart =
      { result := HsWait.error, alert := some SSL_AD_DECODE_ERROR,
        st := hrrStart }) ∧
    ((do_read_hello_retry_request
        { hrrCookieOnlyMsg with body := [3, 4, 0, 6, 0, 40, 0, 2, 0, 99] }
        hrrStart).result = HsWait.error ∧
      (do_read_hello_retry_request
        { hrrCookieOnlyMsg with body := [3, 4, 0, 6, 0, 40, 0, 2, 0, 99] }
        hrrStart).alert = some SSL_AD_ILLEGAL_PARAMETER ∧
      (do_read_hello_retry_request
        { hrrCookieOnlyMsg with body := [3, 4, 0, 6, 0, 40, 0, 2, 0, 99] }
        hrrStart).st.tls13State = hrrStart.tls13State) ∧
    ((do_read_hello_retry_request
        { hrrCookieOnlyMsg with body := [3, 4, 0, 6, 0, 40, 0, 2, 0, 23] }
        hrrStart).result = HsWait.error ∧
      (do_read_hello_retry_request
        { hrrCookieOnlyMsg with body := [3, 4, 0, 6, 0, 40, 0, 2, 0, 23] }
        hrrStart).alert = some SSL_AD_ILLEGAL_PARAMETER ∧
      (do_read_hello_retry_request
        { hrrCookieOnlyMsg with body := [3, 4, 0, 6, 0, 40, 0, 2, 0, 23] }
        hrrStart).st.tls13State = hrrStart.tls13State) :=
  ⟨(C2_hrr_rejections { hrrCookieOnlyMsg with body := [3, 4, 0, 0] } hrrStart
      (by decide)).1 0x0304 [0, 0] (by decide) (by decide),
   (C2_hrr_rejections
      { hrrCookieOnlyMsg with body := [3, 4, 0, 6, 0, 40, 0, 2, 0, 99] }
      hrrStart (by decide)).2.1 0x0304 [0, 6, 0, 40, 0, 2, 0, 99]
      [0, 40, 0, 2, 0, 99] [(TLSEXT_TYPE_key_share, [0, 99])] [0, 99] 99
      (by decide) (by decide) (by rfl) (by decide) (by decide) (by decide)
      (by decide),
   (C2_hrr_rejections
      { hrrCookieOnlyMsg with body := [3, 4, 0, 6, 0, 40, 0, 2, 0, 23] }
      hrrStart (by decide)).2.2 0x0304 [0, 6, 0, 40, 0, 2, 0, 23]
      [0, 40, 0, 2, 0, 23] [(TLSEXT_TYPE_key_share, [0, 23])] [0, 23] 23
      (by decide) (by decide) (by rfl) (by decide) (by decide) (by decide)
      (by decide)⟩

/-- C3: every HelloRetryRequest the handler accepts with a key_share
extension clears the previously offered key-share material, records the
new group as the retry group, folds the message into the transcript,
transitions to the send-second-ClientHello state, and returns
EarlyDataRejected exactly when 0-RTT early data was in flight (returning
ok otherwise). -/
theorem C3_hrr_accept (inp : HRRInput) (st : HRRState)
    (v : Nat) (b1 ext ks : List Nat) (exts : List (Nat × List Nat)) (gid : Nat)
    (hty : inp.msgType = SSL3_MT_HELLO_RETRY_REQUEST)
    (hbody : CBS_get_u16 inp.body = some (v, b1))
    (hext : CBS_get_u16_length_prefixed b1 = some (ext, []))
    (hparse : ssl_parse_extensions false
      [TLSEXT_TYPE_key_share, TLSEXT_TYPE_cookie] ext = Except.ok exts)
    (hcookie : hrrCookieWellFormed (exts.lookup TLSEXT_TYPE_cookie) = true)
    (hks : exts.lookup TLSEXT_TYPE_key_share = some ks)
    (hgid : CBS_get_u16 ks = some (gid, []))
    (hsupp : inp.supportedGroups.contains gid = true)
    (hdiff : inp.offeredGroupID ≠ gid) :
    (do_read_hello_retry_request inp st).st.keySharePresent = false ∧
    (do_read_hello_retry_request inp st).st.retryGroup = some gid ∧
    (do_read_hello_retry_request inp st).st.transcript =
      st.transcript ++ [(inp.msgType, inp.body)] ∧
    (do_read_hello_retry_request inp st).st.tls13State =
      ClientHSState.sendSecondClientHello ∧
    (do_read_hello_retry_request inp st).st.receivedHelloRetryRequest =
      true ∧
    (do_read_hello_retry_request inp st).result =
      (if inp.inEarlyData then HsWait.earlyDataRejected else HsWait.ok) ∧
    ((do_read_hello_retry_request inp st).result = HsWait.earlyDataRejected ↔
      inp.inEarlyData = true) := by
  have hlen : ext.length ≠ 0 := by
    intro h
    rw [List.length_eq_zero.mp h] at hparse
    simp [ssl_parse_extensions, parseExtensionsAux] at hparse
    subst hparse
    simp at hks
  have hmem : gid ∈ inp.supportedGroups := by simpa using hsupp
  have main : (do_read_hello_retry_request inp st).st.keySharePresent =
      false ∧
      (do_read_hello_retry_request inp st).st.retryGroup = some gid ∧
      (do_read_hello_retry_request inp st).st.transcript =
        st.transcript ++ [(inp.msgType, inp.body)] ∧
      (do_read_hello_retry_request inp st).st.tls13State =
        ClientHSState.sendSecondClientHello ∧
      (do_read_hello_retry_request inp st).st.receivedHelloRetryRequest =
        true ∧
      (do_read_hello_retry_request inp st).result =
        (if inp.inEarlyData then HsWait.earlyDataRejected
         else HsWait.ok) := by
    cases hc : exts.lookup TLSEXT_TYPE_cookie with
    | none =>
      simp [do_read_hello_retry_request, hty, hbody, hext, hparse, hc, hks,
        hlen, hrrProcessKeyShare, hgid, hmem, hdiff]
    | some c =>
      rw [hc] at hcookie
      simp only [hrrCookieWellFormed] at hcookie
      cases hcv : CBS_get_u16_length_prefixed c with
      | none => rw [hcv] at hcookie; simp at hcookie
      | some p =>
        obtain ⟨cv, rest⟩ := p
        rw [hcv] at hcookie
        simp only [Bool.and_eq_true, decide_eq_true_eq] at hcookie
        simp [do_read_hello_retry_request, hty, hbody, hext, hparse, hc, hks,
          hlen, hrrProcessCookie, hcv, hcookie.1, hcookie.2,
          hrrProcessKeyShare, hgid, hmem, hdiff]
  refine ⟨main.1, main.2.1, main.2.2.1, main.2.2.2.1, main.2.2.2.2.1,
    main.2.2.2.2.2, ?_⟩
  rw [main.2.2.2.2.2]
  cases h : inp.inEarlyData <;> simp

/-- Closed witness for C3_hrr_accept: a retry to group 24 while group 23
was offered, with 0-RTT in flight, yields exactly one EarlyDataRejected. -/
theorem C3_hrr_accept_witness :
    (do_read_hello_retry_request
        { hrrCookieOnlyMsg with
          body := [3, 4, 0, 6, 0, 40, 0, 2, 0, 24], inEarlyData := true }
        hrrStart).st.keySharePresent = false ∧
    (do_read_hello_retry_request
        { hrrCookieOnlyMsg with
          body := [3, 4, 0, 6, 0, 40, 0, 2, 0, 24], inEarlyData := true }
        hrrStart).st.retryGroup = some 24 ∧
    (do_read_hello_retry_request
        { hrrCookieOnlyMsg with
          body := [3, 4, 0, 6, 0, 40, 0, 2, 0, 24], inEarlyData := true }
        hrrStart).st.transcript =
      hrrStart.transcript ++ [(6, [3, 4, 0, 6, 0, 40, 0, 2, 0, 24])] ∧
    (do_read_hello_retry_request
        { hrrCookieOnlyMsg with
          body := [3, 4, 0, 6, 0, 40, 0, 2, 0, 24], inEarlyData := true }
        hrrStart).st.tls13State = ClientHSState.sendSecondClientHello ∧
    (do_read_hello_retry_request
        { hrrCookieOnlyMsg with
          body := [3, 4, 0, 6, 0, 40, 0, 2, 0, 24], inEarlyData := true }
        hrrStart).st.receivedHelloRetryRequest = true ∧
    (do_read_hello_retry_request
        { hrrCookieOnlyMsg with
          body := [3, 4, 0, 6, 0, 40, 0, 2, 0, 24], inEarlyData := true }
        hrrStart).result = (if true then HsWait.earlyDataRejected
                            else HsWait.ok) ∧
    ((do_read_hello_retry_request
        { hrrCookieOnlyMsg with
          body := [3, 4, 0, 6, 0, 40, 0, 2, 0, 24], inEarlyData := true }
        hrrStart).result = HsWait.earlyDataRejected ↔ true = true) :=
  C3_hrr_accept
    { hrrCookieOnlyMsg with
      body := [3, 4, 0, 6, 0, 40, 0, 2, 0, 24], inEarlyData := true }
    hrrStart 0x0304 [0, 6, 0, 40, 0, 2, 0, 24] [0, 40, 0, 2, 0, 24] [0, 24]
    [(TLSEXT_TYPE_key_share, [0, 24])] 24
    (by decide) (by decide) (by decide) (by rfl) (by decide) (by decide)
    (by decide) (by decide) (by decide)

/-! ## Theorems about do_read_server_hello -/

/-- The handshake state at entry to read_server_hello on a connection with
no offered session. -/
def shStart : SHState :=
  { sslSession := none, serverRandom := [], sessionReused := false,
    newSession := none, newCipher := none, keySchedule := [],
    transcript := [], handshakeSecretsDerived := false,
    tls13State := ClientHSState.readServerHello }

/-- 32 bytes of server random used by the concrete examples. -/
def r32bytes : List Nat := List.replicate 32 1

/-- A ServerHello for the experiment variant: wire version 0x0303
(TLS 1.2), 32-byte random, empty legacy session id, suite 0x1301, zero
compression, and a key_share extension for group 23. -/
def shExpMsg : SHInput :=
  { msgType := SSL3_MT_SERVER_HELLO,
    body := [3, 3] ++ r32bytes ++ [0] ++ [0x13, 0x01] ++ [0] ++
      [0, 6, 0, 40, 0, 2, 0, 23],
    sslVersion := TLS1_3_EXPERIMENT_VERSION,
    pskParse := Except.ok (), sessionCtxValid := true,
    pskDheTimeout := 1000, now := 5, keyShareParse := Except.ok [9, 9] }

/-- C4 counterexample: on a connection whose negotiated version is the
experiment variant 0x7e01, a ServerHello whose version field is 0x0303 —
which differs from the negotiated version — is not rejected: the handler
accepts it and proceeds (returning the read-change-cipher-spec signal, not
a fatal error). -/
theorem C4_counterexample :
    shExpMsg.sslVersion = TLS1_3_EXPERIMENT_VERSION ∧
    (shParseBody shExpMsg.sslVersion shExpMsg.body).map
      (fun p => p.serverVersion) = some TLS1_2_VERSION ∧
    TLS1_2_VERSION ≠ TLS1_3_EXPERIMENT_VERSION ∧
    (do_read_server_hello shExpMsg shStart).result =
      HsWait.readChangeCipherSpec ∧
    (do_read_server_hello shExpMsg shStart).result ≠ HsWait.error := by
  refine ⟨by decide, ?_, by decide, ?_, ?_⟩ <;> decide

/-- C4 (amended): the handler checks the ServerHello version field against
`shExpectedVersion`: the negotiated version itself, except that when the
negotiated version is the experiment variant the field must instead be the
TLS 1.2 value.  Every ServerHello whose version field differs from that
expected value is rejected fatally with alert decode_error and the state
machine does not advance. -/
theorem C4_version_check (inp : SHInput) (st : SHState) (parsed : SHParsed)
    (hty : inp.msgType = SSL3_MT_SERVER_HELLO)
    (hparse : shParseBody inp.sslVersion inp.body = some parsed)
    (hver : parsed.serverVersion ≠ shExpectedVersion inp.sslVersion) :
    do_read_server_hello inp st =
      { result := HsWait.error, alert := some SSL_AD_DECODE_ERROR,
        st := st } := by
  simp [do_read_server_hello, shDecodePhase, hty, hparse, hver, shFatal]

/-- Closed witness for C4_version_check: a draft-version connection
receiving a ServerHello whose version field is TLS 1.2. -/
theorem C4_version_check_witness :
    do_read_server_hello
        { shExpMsg with
          sslVersion := TLS1_3_DRAFT_VERSION,
          body := [3, 3] ++ r32bytes ++ [0x13, 0x01] ++ [0, 0] }
        shStart =
      { result := HsWait.error, alert := some SSL_AD_DECODE_ERROR,
        st := shStart } :=
  C4_version_check
    { shExpMsg with
      sslVersion := TLS1_3_DRAFT_VERSION,
      body := [3, 3] ++ r32bytes ++ [0x13, 0x01] ++ [0, 0] }
    shStart
    { serverVersion := TLS1_2_VERSION, serverRandom := r32bytes,
      cipherSuite := 0x1301, extensions := [] }
    (by decide) (by decide) (by decide)

/-- C5: after the decode phase (message type, body layout, version, cipher
suite and extension-block validation) and the session phase both succeed,
a ServerHello without the key_share extension is always rejected fatally
with alert missing_extension — there is no PSK-only continuation. -/
theorem C5_key_share_mandatory (inp : SHInput) (st : SHState)
    (parsed : SHParsed) (cipher : SSLCipher) (exts : List (Nat × List Nat))
    (st1 st2 : SHState)
    (hdec : shDecodePhase inp st = Except.ok (parsed, cipher, exts, st1))
    (hsess : shSessionPhase inp cipher exts st1 = Except.ok st2)
    (hnoks : extPresent exts TLSEXT_TYPE_key_share = false) :
    (do_read_server_hello inp st).result = HsWait.error ∧
    (do_read_server_hello inp st).alert = some SSL_AD_MISSING_EXTENSION := by
  simp [do_read_server_hello, hdec, hsess, shFinishPhase, hnoks, shFatal]

/-- A no-extension ServerHello on a draft-version connection: decode
succeeds and a fresh session is allocated, but key_share is absent. -/
def shMsgNoKeyShare : SHInput :=
  { shExpMsg with
    sslVersion := TLS1_3_DRAFT_VERSION,
    body := [0x7f, 0x12] ++ r32bytes ++ [0x13, 0x01] ++ [0, 0] }

/-- Closed witness for C5_key_share_mandatory at a concrete ServerHello
with an empty extension block. -/
theorem C5_key_share_mandatory_witness :
    (do_read_server_hello shMsgNoKeyShare shStart).result = HsWait.error ∧
    (do_read_server_hello shMsgNoKeyShare shStart).alert =
      some SSL_AD_MISSING_EXTENSION :=
  C5_key_share_mandatory shMsgNoKeyShare shStart
    { serverVersion := TLS1_3_DRAFT_VERSION, serverRandom := r32bytes,
      cipherSuite := 0x1301, extensions := [] }
    { value := 0x1301, algorithm_prf := SSL_HANDSHAKE_MAC_SHA256,
      min_version := TLS1_3_VERSION, max_version := TLS1_3_VERSION }
    [] { shStart with serverRandom := r32bytes }
    { shStart with
      serverRandom := r32bytes,
      newSession := some freshSession }
    (by rfl) (by rfl) (by decide)

/-- Every decode-phase failure is a fatal result whose state keeps the key
schedule, cipher and session bookkeeping of the entry state. -/
theorem shDecodePhase_error (inp : SHInput) (st : SHState) (out : SHOutput)
    (h : shDecodePhase inp st = Except.error out) :
    out.result = HsWait.error ∧ out.st.keySchedule = st.keySchedule ∧
    out.st.newCipher = st.newCipher ∧
    out.st.sessionReused = st.sessionReused ∧
    out.st.sslSession = st.sslSession ∧
    out.st.newSession = st.newSession := by
  unfold shDecodePhase at h
  repeat' split at h
  all_goals simp_all [shFatal]
  all_goals (cases h; simp [shFatal])

/-- The decode phase only records the server random in the state it passes
on. -/
theorem shDecodePhase_ok_st (inp : SHInput) (st : SHState) (parsed : SHParsed)
    (cipher : SSLCipher) (exts : List (Nat × List Nat)) (st1 : SHState)
    (h : shDecodePhase inp st = Except.ok (parsed, cipher, exts, st1)) :
    st1 = { st with serverRandom := parsed.serverRandom } := by
  unfold shDecodePhase at h
  repeat' split at h
  all_goals try simp_all [shFatal]
  all_goals (obtain ⟨h1, h2, h3, h4⟩ := h; subst h1; exact h4.symm)

/-- Every session-phase failure is fatal and leaves the state exactly as it
was. -/
theorem shSessionPhase_error (inp : SHInput) (cipher : SSLCipher)
    (exts : List (Nat × List Nat)) (st1 : SHState) (out : SHOutput)
    (h : shSessionPhase inp cipher exts st1 = Except.error out) :
    out.result = HsWait.error ∧ out.st = st1 := by
  unfold shSessionPhase at h
  repeat' split at h
  all_goals simp_all [shFatal]
  all_goals (cases h; simp [shFatal])

/-- A session phase that succeeds with pre_shared_key present certifies the
offered session, the external PSK parse, the version, PRF-family and
context checks, and performs exactly the reuse mutations: mark reused,
duplicate only authentication state, refresh the timeout, drop the offered
handle. -/
theorem shSessionPhase_ok_psk (inp : SHInput) (cipher : SSLCipher)
    (exts : List (Nat × List Nat)) (st1 st2 : SHState)
    (hpsk : extPresent exts TLSEXT_TYPE_pre_shared_key = true)
    (h : shSessionPhase inp cipher exts st1 = Except.ok st2) :
    ∃ sess, st1.sslSession = some sess ∧ inp.pskParse = Except.ok () ∧
      sess.ssl_version = inp.sslVersion ∧
      sessionPrf sess = cipher.algorithm_prf ∧
      inp.sessionCtxValid = true ∧
      st2 = { st1 with
              sessionReused := true,
              newSession := some (ssl_session_renew_timeout inp.now
                inp.pskDheTimeout (sessionDupAuthOnly sess)),
              sslSession := none } := by
  unfold shSessionPhase at h
  rw [hpsk] at h
  simp only [if_true] at h
  cases hs : st1.sslSession with
  | none => rw [hs] at h; simp at h
  | some sess =>
    rw [hs] at h
    refine ⟨sess, rfl, ?_⟩
    cases hp : inp.pskParse with
    | error a => rw [hp] at h; simp at h
    | ok u =>
      cases u
      rw [hp] at h
      simp only [] at h
      repeat' split at h
      all_goals simp_all

/-- A session phase with pre_shared_key absent allocates a fresh session
and changes nothing else. -/
theorem shSessionPhase_ok_nopsk (inp : SHInput) (cipher : SSLCipher)
    (exts : List (Nat × List Nat)) (st1 : SHState)
    (hpsk : extPresent exts TLSEXT_TYPE_pre_shared_key = false) :
    shSessionPhase inp cipher exts st1 =
      Except.ok { st1 with newSession := some freshSession } := by
  simp [shSessionPhase, hpsk]

/-- The finish phase records the cipher on the new session and in
new_cipher, and never touches the reuse flag or the (already dropped)
offered handle. -/
theorem shFinishPhase_fields (inp : SHInput) (cipher : SSLCipher)
    (exts : List (Nat × List Nat)) (st2 : SHState) :
    (shFinishPhase inp cipher exts st2).st.newSession =
      st2.newSession.map
        (fun s : SSLSession => { s with cipher := some cipher }) ∧
    (shFinishPhase inp cipher exts st2).st.sessionReused =
      st2.sessionReused ∧
    (shFinishPhase inp cipher exts st2).st.sslSession = st2.sslSession ∧
    (shFinishPhase inp cipher exts st2).st.newCipher = some cipher := by
  unfold shFinishPhase
  by_cases hks : extPresent exts TLSEXT_TYPE_key_share = true
  · cases hp : inp.keyShareParse <;> simp [hks, hp, shFatal]
  · simp [hks, shFatal]

/-- The finish phase appends to the key schedule exactly: the
initialization at the PRF hash length, then the advance with the resumed
session's master secret when the session was reused and with zeros of the
hash length otherwise, then (at most) the DHE advance. -/
theorem shFinishPhase_keySchedule (inp : SHInput) (cipher : SSLCipher)
    (exts : List (Nat × List Nat)) (st2 : SHState) :
    ∃ rest, (shFinishPhase inp cipher exts st2).st.keySchedule =
      st2.keySchedule ++
        [KSStep.ksInit (prfHashLen cipher.algorithm_prf),
         KSStep.advance (if st2.sessionReused then
            (match st2.newSession with
             | some s => s.master_key
             | none => [])
           else kZeroes (prfHashLen cipher.algorithm_prf))] ++ rest := by
  unfold shFinishPhase
  have hsec : (match st2.newSession.map
        (fun s : SSLSession => { s with cipher := some cipher }) with
      | some s => s.master_key
      | none => []) =
      (match st2.newSession with
       | some s => s.master_key
       | none => []) := by
    cases st2.newSession <;> simp
  by_cases hks : extPresent exts TLSEXT_TYPE_key_share = true
  · cases hp : inp.keyShareParse with
    | error a =>
      refine ⟨[], ?_⟩
      simp [hks, hp, shFatal, hsec]
    | ok dhe =>
      refine ⟨[KSStep.advance dhe], ?_⟩
      simp [hks, hp, hsec]
  · refine ⟨[], ?_⟩
    simp [hks, shFatal, hsec]

/-- C6: starting from a state whose key schedule is untouched, the cipher
unset and the reuse flag clear, do_read_server_hello either fails before
the cipher suite is known — leaving both the key schedule and the recorded
cipher empty — or records the chosen cipher and begins the key schedule
with exactly the initialization at that cipher's hash length followed by
an advance with the resumed session's master (resumption) secret when
pre_shared_key was accepted and with the all-zero string of the hash
length when it was not. -/
theorem C6_key_schedule_early_secret (inp : SHInput) (st : SHState)
    (hks0 : st.keySchedule = []) (hnc0 : st.newCipher = none)
    (hr0 : st.sessionReused = false) :
    ((do_read_server_hello inp st).st.keySchedule = [] ∧
      (do_read_server_hello inp st).st.newCipher = none) ∨
    (∃ c s1 rest, (do_read_server_hello inp st).st.newCipher = some c ∧
      (do_read_server_hello inp st).st.keySchedule =
        KSStep.ksInit (prfHashLen c.algorithm_prf) ::
          KSStep.advance s1 :: rest ∧
      ((∃ sess, (do_read_server_hello inp st).st.sessionReused = true ∧
          st.sslSession = some sess ∧ s1 = sess.master_key) ∨
        ((do_read_server_hello inp st).st.sessionReused = false ∧
          s1 = kZeroes (prfHashLen c.algorithm_prf)))) := by
  cases hdec : shDecodePhase inp st with
  | error out =>
    left
    have h := shDecodePhase_error inp st out hdec
    simp [do_read_server_hello, hdec, h.2.1, h.2.2.1, hks0, hnc0]
  | ok q =>
    obtain ⟨parsed, cipher, exts, st1⟩ := q
    have hst1 := shDecodePhase_ok_st inp st parsed cipher exts st1 hdec
    cases hsess : shSessionPhase inp cipher exts st1 with
    | error out =>
      left
      have h := shSessionPhase_error inp cipher exts st1 out hsess
      have hout : do_read_server_hello inp st = out := by
        simp [do_read_server_hello, hdec, hsess]
      rw [hout, h.2, hst1]
      exact ⟨hks0, hnc0⟩
    | ok st2 =>
      right
      have hout : do_read_server_hello inp st = shFinishPhase inp cipher exts st2 := by
        simp [do_read_server_hello, hdec, hsess]
      obtain ⟨rest, hkseq⟩ := shFinishPhase_keySchedule inp cipher exts st2
      have hfields := shFinishPhase_fields inp cipher exts st2
      cases hpsk : extPresent exts TLSEXT_TYPE_pre_shared_key with
      | true =>
        obtain ⟨sess, hsl, _, _, _, _, hst2⟩ :=
          shSessionPhase_ok_psk inp cipher exts st1 st2 hpsk hsess
        refine ⟨cipher, sess.master_key, rest, ?_, ?_, ?_⟩
        · rw [hout]; exact hfields.2.2.2
        · rw [hout, hkseq, hst2, hst1]
          simp [hks0, ssl_session_renew_timeout, sessionDupAuthOnly]
        · left
          refine ⟨sess, ?_, ?_, rfl⟩
          · rw [hout, hfields.2.1, hst2]
          · rw [hst1] at hsl; exact hsl
      | false =>
        have hok := shSessionPhase_ok_nopsk inp cipher exts st1 hpsk
        rw [hok] at hsess
        have hst2 : st2 = { st1 with newSession := some freshSession } := by
          cases hsess; rfl
        refine ⟨cipher, kZeroes (prfHashLen cipher.algorithm_prf), rest,
          ?_, ?_, ?_⟩
        · rw [hout]; exact hfields.2.2.2
        · rw [hout, hkseq, hst2, hst1]
          simp [hks0, hr0]
        · right
          constructor
          · rw [hout, hfields.2.1, hst2, hst1]; exact hr0
          · rfl

/-- Closed witness for C6 at a concrete full-handshake ServerHello: the
key schedule starts with the initialization at hash length 32 followed by
the all-zero advance. -/
theorem C6_key_schedule_early_secret_witness :
    ((do_read_server_hello shExpMsg shStart).st.keySchedule = [] ∧
      (do_read_server_hello shExpMsg shStart).st.newCipher = none) ∨
    (∃ c s1 rest,
      (do_read_server_hello shExpMsg shStart).st.newCipher = some c ∧
      (do_read_server_hello shExpMsg shStart).st.keySchedule =
        KSStep.ksInit (prfHashLen c.algorithm_prf) ::
          KSStep.advance s1 :: rest ∧
      ((∃ sess,
          (do_read_server_hello shExpMsg shStart).st.sessionReused = true ∧
          shStart.sslSession = some sess ∧ s1 = sess.master_key) ∨
        ((do_read_server_hello shExpMsg shStart).st.sessionReused = false ∧
          s1 = kZeroes (prfHashLen c.algorithm_prf)))) :=
  C6_key_schedule_early_secret shExpMsg shStart (by decide) (by decide)
    (by decide)

/-- C7: with the decode phase passed, (1) whenever the pre_shared_key
extension is present, the handler can only avoid a fatal error if a
session was offered whose protocol version equals the negotiated one and
whose cipher's PRF-hash family equals that of the server-chosen cipher;
(2) when those checks (together with the external PSK parse and the
resumption-context check) pass, the handler marks the connection as
session-reused, installs as the new session the authentication-only
duplicate of the offered session with its timeout refreshed (and the
chosen cipher recorded), and discards the offered session handle; and
(3) when pre_shared_key is absent a fresh session is allocated instead. -/
theorem C7_pre_shared_key (inp : SHInput) (st : SHState) (parsed : SHParsed)
    (cipher : SSLCipher) (exts : List (Nat × List Nat)) (st1 : SHState)
    (hdec : shDecodePhase inp st = Except.ok (parsed, cipher, exts, st1)) :
    (extPresent exts TLSEXT_TYPE_pre_shared_key = true →
      (do_read_server_hello inp st).result ≠ HsWait.error →
      ∃ sess, st.sslSession = some sess ∧
        sess.ssl_version = inp.sslVersion ∧
        sessionPrf sess = cipher.algorithm_prf) ∧
    (∀ sess, extPresent exts TLSEXT_TYPE_pre_shared_key = true →
      st.sslSession = some sess → inp.pskParse = Except.ok () →
      sess.ssl_version = inp.sslVersion →
      sessionPrf sess = cipher.algorithm_prf →
      inp.sessionCtxValid = true →
      (do_read_server_hello inp st).st.sessionReused = true ∧
      (do_read_server_hello inp st).st.newSession =
        some { ssl_session_renew_timeout inp.now inp.pskDheTimeout
                 (sessionDupAuthOnly sess) with
               cipher := some cipher } ∧
      (do_read_server_hello inp st).st.sslSession = none) ∧
    (extPresent exts TLSEXT_TYPE_pre_shared_key = false →
      (do_read_server_hello inp st).st.newSession =
        some { freshSession with cipher := some cipher }) := by
  have hst1 := shDecodePhase_ok_st inp st parsed cipher exts st1 hdec
  refine ⟨?_, ?_, ?_⟩
  · intro hpsk hres
    cases hsess : shSessionPhase inp cipher exts st1 with
    | error out =>
      exfalso
      apply hres
      have h := shSessionPhase_error inp cipher exts st1 out hsess
      have hout : do_read_server_hello inp st = out := by
        simp [do_read_server_hello, hdec, hsess]
      rw [hout, h.1]
    | ok st2 =>
      obtain ⟨sess, hsl, _, hv, hprf, _, _⟩ :=
        shSessionPhase_ok_psk inp cipher exts st1 st2 hpsk hsess
      rw [hst1] at hsl
      exact ⟨sess, hsl, hv, hprf⟩
  · intro sess hpsk hsl hpp hv hprf hctx
    have hsl1 : st1.sslSession = some sess := by rw [hst1]; exact hsl
    have hsess : shSessionPhase inp cipher exts st1 =
        Except.ok { st1 with
          sessionReused := true,
          newSession := some (ssl_session_renew_timeout inp.now
            inp.pskDheTimeout (sessionDupAuthOnly sess)),
          sslSession := none } := by
      simp [shSessionPhase, hpsk, hsl1, hpp, hv, hprf, hctx]
    have hout : do_read_server_hello inp st =
        shFinishPhase inp cipher exts
          { st1 with
            sessionReused := true,
            newSession := some (ssl_session_renew_timeout inp.now
              inp.pskDheTimeout (sessionDupAuthOnly sess)),
            sslSession := none } := by
      simp [do_read_server_hello, hdec, hsess]
    have hfields := shFinishPhase_fields inp cipher exts
      { st1 with
        sessionReused := true,
        newSession := some (ssl_session_renew_timeout inp.now
          inp.pskDheTimeout (sessionDupAuthOnly sess)),
        sslSession := none }
    refine ⟨?_, ?_, ?_⟩
    · rw [hout, hfields.2.1]
    · rw [hout, hfields.1]; simp
    · rw [hout, hfields.2.2.1]
  · intro hpsk
    have hsess := shSessionPhase_ok_nopsk inp cipher exts st1 hpsk
    have hout : do_read_server_hello inp st =
        shFinishPhase inp cipher exts
          { st1 with newSession := some freshSession } := by
      simp [do_read_server_hello, hdec, hsess]
    have hfields := shFinishPhase_fields inp cipher exts
      { st1 with newSession := some freshSession }
    rw [hout, hfields.1]; simp

/-- The TLS 1.3 AES-128-GCM-SHA256 table entry. -/
def cipherA : SSLCipher :=
  { value := 0x1301, algorithm_prf := SSL_HANDSHAKE_MAC_SHA256,
    min_version := TLS1_3_VERSION, max_version := TLS1_3_VERSION }

/-- A session offered for resumption on a draft-version connection. -/
def offeredSess : SSLSession :=
  { freshSession with
    ssl_version := TLS1_3_DRAFT_VERSION, cipher := some cipherA,
    master_key := [7, 7, 7], authState := 42, timeout := 99 }

/-- A ServerHello answering a PSK offer: draft version, suite 0x1301, an
(empty-bodied) pre_shared_key extension and a key_share extension. -/
def shMsgPsk : SHInput :=
  { shExpMsg with
    sslVersion := TLS1_3_DRAFT_VERSION,
    body := [0x7f, 0x12] ++ r32bytes ++ [0x13, 0x01] ++
      [0, 10, 0, 41, 0, 0, 0, 40, 0, 2, 0, 23] }

/-- The read_server_hello entry state with the offered session in hand. -/
def shStartPsk : SHState := { shStart with sslSession := some offeredSess }

/-- Closed witness for C7_pre_shared_key: the accepted-PSK mutations at a
concrete resumption ServerHello. -/
theorem C7_pre_shared_key_witness :
    (do_read_server_hello shMsgPsk shStartPsk).st.sessionReused = true ∧
    (do_read_server_hello shMsgPsk shStartPsk).st.newSession =
      some { ssl_session_renew_timeout shMsgPsk.now shMsgPsk.pskDheTimeout
               (sessionDupAuthOnly offeredSess) with
             cipher := some cipherA } ∧
    (do_read_server_hello shMsgPsk shStartPsk).st.sslSession = none :=
  (C7_pre_shared_key shMsgPsk shStartPsk
    { serverVersion := TLS1_3_DRAFT_VERSION, serverRandom := r32bytes,
      cipherSuite := 0x1301,
      extensions := [0, 41, 0, 0, 0, 40, 0, 2, 0, 23] }
    cipherA [(TLSEXT_TYPE_pre_shared_key, []), (TLSEXT_TYPE_key_share, [0, 23])]
    { shStartPsk with serverRandom := r32bytes }
    (by rfl)).2.1 offeredSess (by decide) (by rfl) (by rfl) (by decide)
    (by decide) (by rfl)

/-! ## do_read_encrypted_extensions -/

/-- Immutable inputs of `do_read_encrypted_extensions`.  The verdict of the
external extension responder `ssl_parse_serverhello_tlsext` (another file
of the repository) is supplied as an input, along with the number of bytes
it leaves unconsumed. -/
structure EEInput where
  msgType : Nat
  body : List Nat
  /-- Verdict of ssl_parse_serverhello_tlsext. -/
  parseTlsextOk : Bool
  /-- CBS_len(&body) after ssl_parse_serverhello_tlsext consumed it. -/
  parseTlsextRemaining : Nat
  /-- ssl->s3->alpn_selected (none when the pointer is NULL). -/
  alpnSelected : Option (List Nat)
  /-- ssl->early_data_accepted. -/
  earlyDataAccepted : Bool
  /-- hs->in_early_data. -/
  inEarlyData : Bool
  /-- hs->early_session, the session 0-RTT keys were derived from. -/
  earlySession : SSLSession
  /-- ssl->s3->tlsext_channel_id_valid. -/
  channelIdValid : Bool
  /-- hs->received_custom_extension. -/
  receivedCustomExtension : Bool
  deriving DecidableEq, Repr

/-- Mutable fields touched by `do_read_encrypted_extensions`. -/
structure EEState where
  newSession : SSLSession
  transcript : List (Nat × List Nat)
  tls13State : ClientHSState
  deriving DecidableEq, Repr

structure EEOutput where
  result : HsWait
  alert : Option Nat
  st : EEState
  deriving DecidableEq, Repr

/-- do_read_encrypted_extensions (tls13_client.cc lines 380-436), assuming
a complete message is available: message-type check, delegation to the
extension responder, trailing-byte check, recording the negotiated ALPN on
the session, the 0-RTT cross-checks (fatal, no alert beyond the error
queue), then transcript, state advance and the 0-RTT rejection signal. -/
def do_read_encrypted_extensions (inp : EEInput) (st : EEState) : EEOutput :=
  if inp.msgType ≠ SSL3_MT_ENCRYPTED_EXTENSIONS then
    { result := HsWait.error, alert := some SSL_AD_UNEXPECTED_MESSAGE,
      st := st }
  else if ¬ inp.parseTlsextOk then
    { result := HsWait.error, alert := none, st := st }
  else if inp.parseTlsextRemaining ≠ 0 then
    { result := HsWait.error, alert := some SSL_AD_DECODE_ERROR, st := st }
  else
    let st1 :=
      match inp.alpnSelected with
      | some alpn =>
        { st with newSession := { st.newSession with early_alpn := alpn } }
      | none => st
    if inp.earlyDataAccepted ∧
        (inp.earlySession.cipher ≠ st1.newSession.cipher ∨
          inp.earlySession.early_alpn ≠ inp.alpnSelected.getD []) then
      { result := HsWait.error, alert := none, st := st1 }
    else if inp.earlyDataAccepted ∧
        (inp.channelIdValid ∨ inp.receivedCustomExtension) then
      { result := HsWait.error, alert := none, st := st1 }
    else
      { result := if inp.inEarlyData ∧ ¬ inp.earlyDataAccepted then
                    HsWait.earlyDataRejected
                  else HsWait.ok,
        alert := none,
        st := { st1 with
                transcript := st1.transcript ++ [(inp.msgType, inp.body)],
                tls13State := ClientHSState.readCertificateRequest } }

/-- C8: in do_read_encrypted_extensions, once the message decodes, (1) with
0-RTT accepted, any mismatch of the negotiated cipher suite or ALPN
protocol against the early-data session, or an unexpected channel-binding
or custom extension, is a fatal error; and (2) with 0-RTT offered but not
accepted (and the 0-RTT cross-checks not applicable), the handler folds
the message into the transcript, advances the state, and returns the
EarlyDataRejected signal. -/
theorem C8_encrypted_extensions (inp : EEInput) (st : EEState)
    (hty : inp.msgType = SSL3_MT_ENCRYPTED_EXTENSIONS)
    (hparse : inp.parseTlsextOk = true)
    (hrem : inp.parseTlsextRemaining = 0) :
    (inp.earlyDataAccepted = true →
      (inp.earlySession.cipher ≠ st.newSession.cipher ∨
        inp.earlySession.early_alpn ≠ inp.alpnSelected.getD [] ∨
        inp.channelIdValid = true ∨ inp.receivedCustomExtension = true) →
      (do_read_encrypted_extensions inp st).result = HsWait.error) ∧
    (inp.inEarlyData = true → inp.earlyDataAccepted = false →
      (do_read_encrypted_extensions inp st).result =
        HsWait.earlyDataRejected ∧
      (do_read_encrypted_extensions inp st).st.transcript =
        st.transcript ++ [(inp.msgType, inp.body)] ∧
      (do_read_encrypted_extensions inp st).st.tls13State =
        ClientHSState.readCertificateRequest) := by
  have halpnc :
      (match inp.alpnSelected with
        | some alpn =>
          { st with
            newSession := { st.newSession with early_alpn := alpn } }
        | none => st).newSession.cipher = st.newSession.cipher := by
    cases inp.alpnSelected <;> simp
  have halpnt :
      (match inp.alpnSelected with
        | some alpn =>
          { st with
            newSession := { st.newSession with early_alpn := alpn } }
        | none => st).transcript = st.transcript := by
    cases inp.alpnSelected <;> simp
  constructor
  · intro hacc hmis
    simp only [do_read_encrypted_extensions, hty, hparse, hrem]
    by_cases hcm : inp.earlySession.cipher ≠ st.newSession.cipher ∨
        inp.earlySession.early_alpn ≠ inp.alpnSelected.getD []
    · rw [← halpnc] at hcm
      simp [hacc, hcm]
    · push_neg at hcm
      have hce : inp.channelIdValid = true ∨
          inp.receivedCustomExtension = true := by
        rcases hmis with h | h | h | h
        · exact absurd h (by simp [hcm.1])
        · exact absurd h (by simp [hcm.2])
        · exact Or.inl h
        · exact Or.inr h
      have hcm1 : inp.earlySession.cipher =
          (match inp.alpnSelected with
            | some alpn =>
              { st with
                newSession := { st.newSession with early_alpn := alpn } }
            | none => st).newSession.cipher := by
        rw [halpnc]; exact hcm.1
      rcases hce with h | h <;>
        simp [hacc, hcm1, hcm.2, h]
  · intro hin hacc
    simp only [do_read_encrypted_extensions, hty, hparse, hrem]
    rcases halpn : inp.alpnSelected with _ | alpn <;>
      simp_all [hacc, hin]

/-- The encrypted-extensions entry state: a fresh session carrying the
negotiated cipher. -/
def eeStart : EEState :=
  { newSession := { freshSession with cipher := some cipherA },
    transcript := [], tls13State := ClientHSState.readEncryptedExtensions }

/-- An EncryptedExtensions arriving while 0-RTT had been accepted against a
session with a different cipher. -/
def eeMsgMismatch : EEInput :=
  { msgType := SSL3_MT_ENCRYPTED_EXTENSIONS, body := [0, 0],
    parseTlsextOk := true, parseTlsextRemaining := 0, alpnSelected := none,
    earlyDataAccepted := true, inEarlyData := true,
    earlySession := freshSession, channelIdValid := false,
    receivedCustomExtension := false }

/-- An EncryptedExtensions arriving while 0-RTT was offered but the server
did not accept it. -/
def eeMsgRejected : EEInput :=
  { eeMsgMismatch with earlyDataAccepted := false }

/-- Closed witness for C8_encrypted_extensions: the fatal cipher mismatch
over accepted 0-RTT, and the EarlyDataRejected outcome when 0-RTT was
offered but not accepted. -/
theorem C8_encrypted_extensions_witness :
    (do_read_encrypted_extensions eeMsgMismatch eeStart).result =
      HsWait.error ∧
    ((do_read_encrypted_extensions eeMsgRejected eeStart).result =
        HsWait.earlyDataRejected ∧
      (do_read_encrypted_extensions eeMsgRejected eeStart).st.transcript =
        eeStart.transcript ++ [(eeMsgRejected.msgType, eeMsgRejected.body)] ∧
      (do_read_encrypted_extensions eeMsgRejected eeStart).st.tls13State =
        ClientHSState.readCertificateRequest) :=
  ⟨(C8_encrypted_extensions eeMsgMismatch eeStart (by decide) (by decide)
      (by decide)).1 (by decide) (Or.inl (by decide)),
   (C8_encrypted_extensions eeMsgRejected eeStart (by decide) (by decide)
      (by decide)).2 (by decide) (by decide)⟩

/-! ## tls13_process_new_session_ticket -/

/-- Immutable inputs of `tls13_process_new_session_ticket`. -/
structure NSTInput where
  body : List Nat
  /-- ssl->s3->established_session, duplicated including non-auth state. -/
  establishedSession : SSLSession
  now : Nat
  /-- ssl->cert->enable_early_data. -/
  enableEarlyData : Bool
  /-- Whether ssl->ctx->new_session_cb is registered. -/
  hasNewSessionCb : Bool
  deriving DecidableEq, Repr

/-- The observable outcome of `tls13_process_new_session_ticket`: its
return value, the alert sent on failure, whether the session-cache
callback was invoked, and the session built on success. -/
structure NSTOutput where
  ret : Bool
  alert : Option Nat
  cbInvoked : Bool
  builtSession : Option SSLSession
  deriving DecidableEq, Repr

/-- A failing exit of tls13_process_new_session_ticket: alert sent, return
0, and no callback. -/
def nstFail (a : Nat) : NSTOutput :=
  { ret := false, alert := some a, cbInvoked := false, builtSession := none }

/-- tls13_process_new_session_ticket (tls13_client.cc lines 785-848):
duplicate the established session in full, re-base its time, parse
{lifetime:u32, ticket_age_add:u32, ticket, extensions} with no trailing
bytes, cap the session timeout at the server-advertised lifetime, parse
the extension block leniently, validate ticket_early_data_info when early
data is enabled, mark the ticket usable, and hand the session to the
session-cache callback when one is registered. -/
def tls13_process_new_session_ticket (inp : NSTInput) : NSTOutput :=
  let session0 := ssl_session_rebase_time inp.now
    (sessionDupAll inp.establishedSession)
  match CBS_get_u32 inp.body with
  | none => nstFail SSL_AD_DECODE_ERROR
  | some (serverTimeout, b1) =>
    match CBS_get_u32 b1 with
    | none => nstFail SSL_AD_DECODE_ERROR
    | some (ageAdd, b2) =>
      match CBS_get_u16_length_prefixed b2 with
      | none => nstFail SSL_AD_DECODE_ERROR
      | some (ticket, b3) =>
        match CBS_get_u16_length_prefixed b3 with
        | none => nstFail SSL_AD_DECODE_ERROR
        | some (extensions, b4) =>
          if b4.length ≠ 0 then nstFail SSL_AD_DECODE_ERROR
          else
            let session1 := { session0 with
              ticket_age_add := ageAdd, tlsext_tick := ticket }
            let session2 :=
              if session1.timeout > serverTimeout then
                { session1 with timeout := serverTimeout }
              else session1
            match ssl_parse_extensions true
                [TLSEXT_TYPE_ticket_early_data_info] extensions with
            | Except.error a => nstFail a
            | Except.ok exts =>
              let next : Except NSTOutput SSLSession :=
                match exts.lookup TLSEXT_TYPE_ticket_early_data_info with
                | some edi =>
                  if inp.enableEarlyData then
                    match CBS_get_u32 edi with
                    | none => Except.error (nstFail SSL_AD_DECODE_ERROR)
                    | some (maxEarly, rest) =>
                      if rest.length ≠ 0 then
                        Except.error (nstFail SSL_AD_DECODE_ERROR)
                      else Except.ok
                        { session2 with ticket_max_early_data := maxEarly }
                  else Except.ok session2
                | none => Except.ok session2
              match next with
              | Except.error out => out
              | Except.ok session3 =>
                { ret := true, alert := none,
                  cbInvoked := inp.hasNewSessionCb,
                  builtSession := some
                    { session3 with
                      ticket_age_add_valid := true,
                      not_resumable := false } }

/-- The early-data-info extension is absent, ignored (early data
disabled), or well-formed — the condition under which the ticket handler
proceeds past it. -/
def nstEDIOk (enable : Bool) (exts : List (Nat × List Nat)) : Bool :=
  match exts.lookup TLSEXT_TYPE_ticket_early_data_info with
  | none => true
  | some edi =>
    if enable then
      match CBS_get_u32 edi with
      | none => false
      | some p => p.2.length == 0
    else true

/-- C9: for every NewSessionTicket that parses, the session built by
tls13_process_new_session_ticket has timeout equal to the minimum of the
established session's configured timeout and the server-advertised ticket
lifetime: lowered to the server's lifetime when the local value exceeds
it, never extended beyond it. -/
theorem C9_ticket_lifetime_cap (inp : NSTInput)
    (serverTimeout ageAdd : Nat) (b1 b2 b3 ticket extensions : List Nat)
    (exts : List (Nat × List Nat))
    (h1 : CBS_get_u32 inp.body = some (serverTimeout, b1))
    (h2 : CBS_get_u32 b1 = some (ageAdd, b2))
    (h3 : CBS_get_u16_length_prefixed b2 = some (ticket, b3))
    (h4 : CBS_get_u16_length_prefixed b3 = some (extensions, []))
    (h5 : ssl_parse_extensions true [TLSEXT_TYPE_ticket_early_data_info]
      extensions = Except.ok exts)
    (h6 : nstEDIOk inp.enableEarlyData exts = true) :
    (tls13_process_new_session_ticket inp).ret = true ∧
    ∃ s, (tls13_process_new_session_ticket inp).builtSession = some s ∧
      s.timeout = min inp.establishedSession.timeout serverTimeout := by
  simp only [tls13_process_new_session_ticket, h1, h2, h3, h4, h5]
  simp only [nstEDIOk] at h6
  cases hedi : exts.lookup TLSEXT_TYPE_ticket_early_data_info with
  | none =>
    simp [hedi, ssl_session_rebase_time, sessionDupAll]
    by_cases hcap : inp.establishedSession.timeout > serverTimeout <;>
      simp [hcap] <;> omega
  | some edi =>
    rw [hedi] at h6
    cases he : inp.enableEarlyData with
    | false =>
      simp [hedi, he, ssl_session_rebase_time, sessionDupAll]
      by_cases hcap : inp.establishedSession.timeout > serverTimeout <;>
        simp [hcap] <;> omega
    | true =>
      rw [he] at h6
      simp only [if_true] at h6
      cases hu : CBS_get_u32 edi with
      | none => rw [hu] at h6; simp at h6
      | some p =>
        obtain ⟨maxEarly, rest⟩ := p
        rw [hu] at h6
        simp only [beq_iff_eq] at h6
        have hrest : rest.length = 0 := h6
        simp [hedi, he, hu, hrest, ssl_session_rebase_time, sessionDupAll]
        by_cases hcap : inp.establishedSession.timeout > serverTimeout <;>
          simp [hcap] <;> omega

/-- The established session and NewSessionTicket body of the spec's
scenario 5: locally configured timeout 7200, advertised lifetime 3600. -/
def nstScenario5 : NSTInput :=
  { body := [0, 0, 14, 16] ++ [0, 0, 0, 1] ++ [0, 2, 171, 205] ++ [0, 0],
    establishedSession := { freshSession with timeout := 7200 },
    now := 10, enableEarlyData := true, hasNewSessionCb := true }

/-- Closed witness for C9_ticket_lifetime_cap at scenario 5: the resulting
timeout is capped at 3600. -/
theorem C9_ticket_lifetime_cap_witness :
    (tls13_process_new_session_ticket nstScenario5).ret = true ∧
    ∃ s, (tls13_process_new_session_ticket nstScenario5).builtSession =
        some s ∧
      s.timeout = min nstScenario5.establishedSession.timeout 3600 :=
  C9_ticket_lifetime_cap nstScenario5 3600 1 [0, 0, 0, 1, 0, 2, 171, 205, 0, 0]
    [0, 2, 171, 205, 0, 0] [0, 0] [171, 205] [] []
    (by decide) (by decide) (by decide) (by decide) (by rfl) (by decide)

/-- C10: the session-cache callback of tls13_process_new_session_ticket is
invoked only on full success: whenever the function fails (every decode
failure returns 0), the callback was not invoked and no session was built
or handed off. -/
theorem C10_no_handoff_on_error (inp : NSTInput) :
    ((tls13_process_new_session_ticket inp).cbInvoked = true →
      (tls13_process_new_session_ticket inp).ret = true) ∧
    ((tls13_process_new_session_ticket inp).ret = false →
      (tls13_process_new_session_ticket inp).cbInvoked = false ∧
      (tls13_process_new_session_ticket inp).builtSession = none) := by
  unfold tls13_process_new_session_ticket
  repeat' split
  all_goals simp [nstFail]

/-- Closed witness for C10_no_handoff_on_error at a truncated
NewSessionTicket: the function fails, no callback, no session. -/
theorem C10_no_handoff_on_error_witness :
    (tls13_process_new_session_ticket
        { nstScenario5 with body := [0, 0] }).cbInvoked = false ∧
    (tls13_process_new_session_ticket
        { nstScenario5 with body := [0, 0] }).builtSession = none :=
  (C10_no_handoff_on_error { nstScenario5 with body := [0, 0] }).2
    (by decide)

end TLS13
